import Mathlib

/-!
Verification of the Benefits Finder backend (`main.py`, `schemas.py`).

The data model (`Benefit`, `Inquiry`) is embedded from `schemas.py`; the
endpoints `seed_benefits`, `list_benefits` and `match_benefits` are embedded
from `main.py`.  Python floats (income fields, validated non-negative) are
modelled as rationals, optional fields as `Option`, and the process-wide
Mongo handle `db` as an explicit `Option Store` argument.  The storage layer
(`database.py`: `db`, `get_documents`, `create_document`) is not part of the
two source files and is modelled from the specification where noted.
-/

/-- `schemas.py` `Benefit`: one public-assistance program record.
Field defaults mirror the pydantic defaults (`None`, `tags=[]`). -/
structure Benefit where
  name : String
  agency : Option String := none
  description : String
  category : String
  url : Option String := none
  eligibility_notes : Option String := none
  min_age : Option Nat := none
  max_age : Option Nat := none
  max_income : Option ℚ := none
  location : Option String := none
  requires_disability : Option Bool := none
  requires_veteran : Option Bool := none
  requires_dependents : Option Bool := none
  tags : Option (List String) := some []
deriving DecidableEq, Repr

/-- `schemas.py` `Inquiry`: one anonymous user profile submitted for matching. -/
structure Inquiry where
  age : Option Nat := none
  income : Option ℚ := none
  location : Option String := none
  disability : Option Bool := none
  veteran : Option Bool := none
  dependents : Option Nat := none
  employment_status : Option String := none
  housing_status : Option String := none
  tags : Option (List String) := some []
deriving DecidableEq, Repr

/-- The `"benefit"` collection of the document store. -/
structure Store where
  benefits : List Benefit
deriving DecidableEq, Repr

/-- Python truthiness of an `Optional[bool]`: `None` and `False` are falsy. -/
def truthy : Option Bool → Bool
  | some b => b
  | none => false

/-- Python truthiness of an `Optional[str]`: `None` and `""` are falsy. -/
def strTruthy : Option String → Bool
  | some s => s != ""
  | none => false

/-- Python `str.lower()` (the inputs compared in the source are ASCII region
codes and tags): lower-case every character. -/
def strLower (s : String) : String := ⟨s.data.map Char.toLower⟩

/-- `main.py` line 150-154, income rule: when both sides are present,
`income <= max_income` scores +2, otherwise the benefit is dropped
(`continue`, modelled as `none`); when either side is absent the rule is
skipped with score contribution 0. -/
def income_step (profile : Inquiry) (b : Benefit) : Option Int :=
  match profile.income, b.max_income with
  | some i, some m => if i ≤ m then some 2 else none
  | _, _ => some 0

/-- The income rule drops the benefit (`continue` on line 154). -/
def income_excludes (profile : Inquiry) (b : Benefit) : Bool :=
  match profile.income, b.max_income with
  | some i, some m => decide (m < i)
  | _, _ => false

/-- `main.py` line 156-157: `b.min_age is not None and profile.age is not None
and profile.age < b.min_age`. -/
def min_age_excludes (profile : Inquiry) (b : Benefit) : Bool :=
  match b.min_age, profile.age with
  | some mn, some a => decide (a < mn)
  | _, _ => false

/-- `main.py` line 158-159: `b.max_age is not None and profile.age is not None
and profile.age > b.max_age`. -/
def max_age_excludes (profile : Inquiry) (b : Benefit) : Bool :=
  match b.max_age, profile.age with
  | some mx, some a => decide (mx < a)
  | _, _ => false

/-- `main.py` line 161: `b.location and profile.location and
b.location.lower() != profile.location.lower()` (string truthiness: `None`
and `""` are falsy). -/
def location_excludes (profile : Inquiry) (b : Benefit) : Bool :=
  strTruthy b.location && strTruthy profile.location &&
    match b.location, profile.location with
    | some bl, some pl => strLower bl != strLower pl
    | _, _ => false

/-- `main.py` line 164: `b.requires_disability and not profile.disability`. -/
def disability_excludes (profile : Inquiry) (b : Benefit) : Bool :=
  truthy b.requires_disability && !(truthy profile.disability)

/-- `main.py` line 166: `b.requires_veteran and not profile.veteran`. -/
def veteran_excludes (profile : Inquiry) (b : Benefit) : Bool :=
  truthy b.requires_veteran && !(truthy profile.veteran)

/-- `main.py` line 168: `b.requires_dependents and (profile.dependents is None
or profile.dependents == 0)`. -/
def dependents_excludes (profile : Inquiry) (b : Benefit) : Bool :=
  truthy b.requires_dependents &&
    match profile.dependents with
    | none => true
    | some d => d == 0

/-- `main.py` lines 172-175, soft tag boost: when both tag lists are truthy
(present and non-empty) and their case-insensitive intersection is non-empty,
+1 to the score. -/
def tag_boost (profile : Inquiry) (b : Benefit) : Int :=
  match profile.tags, b.tags with
  | some pts, some bts =>
    if pts.isEmpty || bts.isEmpty then 0
    else if pts.any (fun t => bts.any (fun u => strLower t == strLower u)) then 1
    else 0
  | _, _ => 0

/-- One iteration of the loop body of `match_benefits` (`main.py` 147-178):
`some score` when the benefit is appended to `matches`, `none` when a rule
hits `continue` (or the final `score >= 0` check fails, which it never does). -/
def evalBenefit (profile : Inquiry) (b : Benefit) : Option Int :=
  match income_step profile b with
  | none => none
  | some score =>
    if min_age_excludes profile b then none
    else if max_age_excludes profile b then none
    else if location_excludes profile b then none
    else if disability_excludes profile b then none
    else if veteran_excludes profile b then none
    else if dependents_excludes profile b then none
    else
      let score := score + tag_boost profile b
      if 0 ≤ score then some score else none

/-- The `for b in benefits` accumulation loop of `match_benefits`
(`main.py` 145-180): appends each surviving benefit to `matches`. -/
def matchCatalog (profile : Inquiry) (benefits : List Benefit) : List Benefit :=
  benefits.foldl
    (fun ms b =>
      match evalBenefit profile b with
      | some _ => ms ++ [b]
      | none => ms)
    []

/-- Modelled from the spec: `database.py` is not among the source files.
Per the spec, any endpoint depending on storage returns an error status
(signal: "storage unavailable") when the storage handle is not configured,
propagating before any read, and `fetch_all(limit)` returns up to `limit`
records in storage order. -/
def get_documents (db : Option Store) (limit : Option Nat) :
    Except String (List Benefit) :=
  match db with
  | none => Except.error "storage unavailable"
  | some s =>
    match limit with
    | none => Except.ok s.benefits
    | some n => Except.ok (s.benefits.take n)

/-- Modelled from the spec: `database.py` is not among the source files.
`create_document` inserts one document at the end of the collection. -/
def create_document (s : Store) (item : Benefit) : Store :=
  ⟨s.benefits ++ [item]⟩

/-- `main.py` `list_benefits` (lines 127-135): fetches up to `limit`
documents and re-validates them as `Benefit` records (identity here, since
the store already holds `Benefit` values with no `_id`). -/
def list_benefits (db : Option Store) (limit : Option Nat) :
    Except String (List Benefit) :=
  (get_documents db limit).map (fun docs => docs)

/-- `main.py` `match_benefits` endpoint (lines 137-180): 500 error when the
handle is unset, otherwise fetches the catalog through `list_benefits` (at
its default limit of 50) and filters it with the rule loop. -/
def match_benefits (db : Option Store) (profile : Inquiry) :
    Except String (List Benefit) :=
  match db with
  | none => Except.error "Database not configured"
  | some _ =>
    (list_benefits db (some 50)).map (fun benefits => matchCatalog profile benefits)

/-- `main.py` lines 75-118: the four fixed seed records. -/
def seed_data : List Benefit :=
  [ { name := "SNAP (Food Assistance)"
      agency := some "USDA"
      description := "Monthly funds on an EBT card to help buy groceries."
      category := "food"
      url := some "https://www.fns.usda.gov/snap"
      eligibility_notes := some "Based on household size, income, and expenses."
      max_income := some 30000
      tags := some ["low-income", "household"] },
    { name := "Medicaid"
      agency := some "State Medicaid Agency"
      description := "Free or low-cost health coverage for eligible individuals."
      category := "healthcare"
      url := some "https://www.medicaid.gov/"
      eligibility_notes := some "Based on income, disability, pregnancy, and other factors."
      max_income := some 28000
      tags := some ["health", "low-income"] },
    { name := "Pell Grant"
      agency := some "U.S. Department of Education"
      description := "Grant to help pay for college, does not need to be repaid."
      category := "education"
      url := some "https://studentaid.gov/understand-aid/types/grants/pell"
      eligibility_notes := some "Undergraduate students with exceptional financial need."
      max_income := some 60000
      min_age := some 16
      tags := some ["students", "education"] },
    { name := "Section 8 Housing Choice Voucher"
      agency := some "HUD"
      description := "Rental assistance vouchers for low-income families."
      category := "housing"
      url := some "https://www.hud.gov/"
      eligibility_notes := some "Waitlists common; based on income and family size."
      max_income := some 35000
      requires_dependents := some true
      tags := some ["housing", "family"] } ]

/-- `main.py` `seed_benefits` (lines 65-125): 500 error when the handle is
unset; no-op reporting 0 when the collection is non-empty; otherwise inserts
the four seed records one by one, counting insertions. -/
def seed_benefits (db : Option Store) : Except String (Store × Nat) :=
  match db with
  | none => Except.error "Database not configured"
  | some s =>
    if s.benefits.length > 0 then Except.ok (s, 0)
    else
      Except.ok
        (seed_data.foldl
          (fun acc item => (create_document acc.1 item, acc.2 + 1)) (s, 0))

/-- Any of the seven hard-exclusion rules fires. -/
def hard_excluded (profile : Inquiry) (b : Benefit) : Bool :=
  income_excludes profile b || min_age_excludes profile b ||
  max_age_excludes profile b || location_excludes profile b ||
  disability_excludes profile b || veteran_excludes profile b ||
  dependents_excludes profile b

/-! ### Structural lemmas about the matcher -/

theorem tag_boost_nonneg (profile : Inquiry) (b : Benefit) :
    0 ≤ tag_boost profile b := by
  unfold tag_boost
  cases hp : profile.tags <;> cases hb : b.tags <;> try norm_num
  split_ifs <;> norm_num

theorem income_step_eq_none_iff (profile : Inquiry) (b : Benefit) :
    income_step profile b = none ↔ income_excludes profile b = true := by
  unfold income_step income_excludes
  cases hi : profile.income <;> cases hm : b.max_income <;> simp [not_le]

theorem income_step_cases (profile : Inquiry) (b : Benefit) :
    income_step profile b = none ∨ income_step profile b = some 0 ∨
      income_step profile b = some 2 := by
  unfold income_step
  rcases profile.income with _ | i <;> rcases b.max_income with _ | m <;> simp
  by_cases hle : i ≤ m
  · simp [hle]
  · simp [hle]
    exact lt_of_not_le hle

theorem income_step_some_nonneg (profile : Inquiry) (b : Benefit) (s : Int)
    (h : income_step profile b = some s) : 0 ≤ s := by
  rcases income_step_cases profile b with hc | hc | hc <;> rw [hc] at h
  · exact Option.noConfusion h
  · injection h with h; omega
  · injection h with h; omega

/-- Inclusion of a benefit is decided exactly by the seven hard rules: the
loop body yields `some` iff no hard rule fires. -/
theorem evalBenefit_isSome_eq (profile : Inquiry) (b : Benefit) :
    (evalBenefit profile b).isSome = !(hard_excluded profile b) := by
  have hb := tag_boost_nonneg profile b
  unfold hard_excluded
  cases hstep : income_step profile b with
  | none =>
    have h := (income_step_eq_none_iff profile b).1 hstep
    simp [evalBenefit, hstep, h]
  | some s =>
    have h0 : income_excludes profile b = false := by
      cases h : income_excludes profile b
      · rfl
      · have h2 := (income_step_eq_none_iff profile b).2 h
        rw [hstep] at h2; cases h2
    have hs : 0 ≤ s := income_step_some_nonneg profile b s hstep
    cases h1 : min_age_excludes profile b <;>
    cases h2 : max_age_excludes profile b <;>
    cases h3 : location_excludes profile b <;>
    cases h4 : disability_excludes profile b <;>
    cases h5 : veteran_excludes profile b <;>
    cases h6 : dependents_excludes profile b <;>
      simp [evalBenefit, hstep, h0, h1, h2, h3, h4, h5, h6, add_nonneg hs hb]

theorem evalBenefit_some_nonneg (profile : Inquiry) (b : Benefit) (s : Int)
    (h : evalBenefit profile b = some s) : 0 ≤ s := by
  cases hstep : income_step profile b <;>
    simp only [evalBenefit, hstep] at h
  · exact Option.noConfusion h
  · split_ifs at h
    rename_i hcheck
    injection h with h
    omega

/-- The append-accumulation loop is a plain filter of the catalog. -/
theorem matchCatalog_eq_filter (profile : Inquiry) (l : List Benefit) :
    matchCatalog profile l = l.filter (fun b => (evalBenefit profile b).isSome) := by
  suffices h : ∀ acc : List Benefit,
      l.foldl (fun ms b => match evalBenefit profile b with
                           | some _ => ms ++ [b]
                           | none => ms) acc =
        acc ++ l.filter (fun b => (evalBenefit profile b).isSome) by
    simpa [matchCatalog] using h []
  induction l with
  | nil => intro acc; simp
  | cons b l ih =>
    intro acc
    cases h : evalBenefit profile b with
    | none => simp [List.filter_cons, h, ih]
    | some s => simp [List.filter_cons, h, ih]

theorem mem_matchCatalog (profile : Inquiry) (l : List Benefit) (b : Benefit) :
    b ∈ matchCatalog profile l ↔ b ∈ l ∧ (evalBenefit profile b).isSome := by
  rw [matchCatalog_eq_filter]
  simp [List.mem_filter]

theorem not_mem_matchCatalog_of_hard_excluded (profile : Inquiry) (b : Benefit)
    (h : hard_excluded profile b = true) :
    ∀ catalog : List Benefit, b ∉ matchCatalog profile catalog := by
  intro catalog hmem
  have h2 := ((mem_matchCatalog profile catalog b).1 hmem).2
  rw [evalBenefit_isSome_eq, h] at h2
  cases h2

/-- `truthy` holds exactly on `some true`. -/
theorem truthy_eq_true_iff (o : Option Bool) : truthy o = true ↔ o = some true := by
  cases o with
  | none => simp [truthy]
  | some b => cases b <;> simp [truthy]

/-! ### Fixtures for concrete witnesses -/

/-- A benefit constrained only by income (modelled on the SNAP seed record). -/
def snapB : Benefit :=
  { name := "SNAP", description := "Food assistance", category := "food",
    max_income := some 30000 }

/-- A benefit with inclusive age bounds 18-65. -/
def ageB : Benefit :=
  { name := "AdultWork", description := "Working-age program",
    category := "employment", min_age := some 18, max_age := some 65 }

/-- C1: a benefit is in the match result exactly when no hard rule (income,
minimum age, maximum age, location, disability, veteran, dependents) excludes
it, and the accumulated score at the accept check is always non-negative, so
the score never affects which benefits are returned. -/
theorem matcher_score_inert (profile : Inquiry) (catalog : List Benefit)
    (b : Benefit) :
    (b ∈ matchCatalog profile catalog ↔
      b ∈ catalog ∧ hard_excluded profile b = false) ∧
    (∀ s : Int, evalBenefit profile b = some s → 0 ≤ s) := by
  constructor
  · rw [mem_matchCatalog]
    constructor
    · rintro ⟨hmem, hsome⟩
      refine ⟨hmem, ?_⟩
      rw [evalBenefit_isSome_eq] at hsome
      cases h : hard_excluded profile b
      · rfl
      · rw [h] at hsome; cases hsome
    · rintro ⟨hmem, hh⟩
      refine ⟨hmem, ?_⟩
      rw [evalBenefit_isSome_eq, hh]
      rfl
  · exact evalBenefit_some_nonneg profile b

/-- Witness for C1 at a concrete profile and catalog. -/
theorem matcher_score_inert_witness :
    snapB ∈ matchCatalog { income := some 25000 } [snapB] ∧ (0 : Int) ≤ 2 :=
  ⟨(matcher_score_inert { income := some 25000 } [snapB] snapB).1.2
      ⟨by decide, by decide⟩,
    (matcher_score_inert { income := some 25000 } [snapB] snapB).2 2 (by decide)⟩

/-- C2: with both `profile.income` and `benefit.max_income` present,
`income > max_income` excludes the benefit from every match result regardless
of all other fields, `income <= max_income` (inclusive) passes the income
rule, and an absent side makes the rule a no-op. -/
theorem income_rule_spec (profile : Inquiry) (b : Benefit) :
    (∀ i m : ℚ, profile.income = some i → b.max_income = some m → m < i →
      evalBenefit profile b = none ∧
        ∀ catalog : List Benefit, b ∉ matchCatalog profile catalog) ∧
    (∀ i m : ℚ, profile.income = some i → b.max_income = some m → i ≤ m →
      income_excludes profile b = false ∧ income_step profile b = some 2) ∧
    ((profile.income = none ∨ b.max_income = none) →
      income_excludes profile b = false ∧ income_step profile b = some 0) := by
  refine ⟨?_, ?_, ?_⟩
  · intro i m hi hm hlt
    have hexc : income_excludes profile b = true := by
      unfold income_excludes
      rw [hi, hm]
      simp [hlt]
    have hstep : income_step profile b = none :=
      (income_step_eq_none_iff profile b).2 hexc
    refine ⟨by simp [evalBenefit, hstep], ?_⟩
    exact not_mem_matchCatalog_of_hard_excluded profile b
      (by simp [hard_excluded, hexc])
  · intro i m hi hm hle
    constructor
    · unfold income_excludes
      rw [hi, hm]
      exact decide_eq_false (not_lt.mpr hle)
    · unfold income_step
      rw [hi, hm]
      exact if_pos hle
  · rintro (h | h)
    · unfold income_excludes income_step
      rw [h]
      exact ⟨rfl, rfl⟩
    · unfold income_excludes income_step
      rw [h]
      rcases profile.income with _ | i <;> exact ⟨rfl, rfl⟩
/-- Witness for C2: exclusion above the cap, pass at or below it, no-op when
absent. -/
theorem income_rule_spec_witness :
    snapB ∉ matchCatalog { income := some 45000 } [snapB] ∧
    income_step { income := some 25000 } snapB = some 2 ∧
    income_step {} snapB = some 0 :=
  ⟨((income_rule_spec { income := some 45000 } snapB).1 45000 30000 rfl rfl
      (by norm_num)).2 [snapB],
    ((income_rule_spec { income := some 25000 } snapB).2.1 25000 30000 rfl rfl
      (by norm_num)).2,
    ((income_rule_spec {} snapB).2.2 (Or.inl rfl)).2⟩

/-- C3: every storage-dependent endpoint (seed, list, match) returns an error
status when the storage handle is not configured, before any read or write of
the store. -/
theorem storage_unconfigured_errors :
    seed_benefits none = Except.error "Database not configured" ∧
    (∀ limit : Option Nat,
      list_benefits none limit = Except.error "storage unavailable") ∧
    (∀ profile : Inquiry,
      match_benefits none profile = Except.error "Database not configured") :=
  ⟨rfl, fun _ => rfl, fun _ => rfl⟩

/-- A benefit with its tag list replaced by the empty list: two benefits with
equal strips differ at most in tag contents. -/
def stripTagsB (b : Benefit) : Benefit := { b with tags := some [] }

/-- An inquiry with its tag list replaced by the empty list. -/
def stripTagsI (p : Inquiry) : Inquiry := { p with tags := some [] }

/-- The seven hard rules read no tag field: they agree on inputs that differ
only in tag contents. -/
theorem hard_excluded_congr (p p' : Inquiry) (b b' : Benefit)
    (hp : stripTagsI p = stripTagsI p') (hb : stripTagsB b = stripTagsB b') :
    hard_excluded p b = hard_excluded p' b' := by
  rcases p with ⟨a1, a2, a3, a4, a5, a6, a7, a8, a9⟩
  rcases p' with ⟨c1, c2, c3, c4, c5, c6, c7, c8, c9⟩
  rcases b with ⟨d1, d2, d3, d4, d5, d6, d7, d8, d9, d10, d11, d12, d13, d14⟩
  rcases b' with ⟨g1, g2, g3, g4, g5, g6, g7, g8, g9, g10, g11, g12, g13, g14⟩
  simp only [stripTagsI, Inquiry.mk.injEq] at hp
  simp only [stripTagsB, Benefit.mk.injEq] at hb
  obtain ⟨h1, h2, h3, h4, h5, h6, h7, h8, -⟩ := hp
  obtain ⟨k1, k2, k3, k4, k5, k6, k7, k8, k9, k10, k11, k12, k13, -⟩ := hb
  subst h1 h2 h3 h4 h5 h6 h7 h8 k1 k2 k3 k4 k5 k6 k7 k8 k9 k10 k11 k12 k13
  rfl

/-- C4: on inputs that differ only in tag contents (of the profile or of the
benefits), the match results contain the same benefits, in the same order, up
to those same tag differences: tag overlap may change only the internal
score, never inclusion or exclusion. -/
theorem tags_affect_score_only (p p' : Inquiry) (C C' : List Benefit)
    (hp : stripTagsI p = stripTagsI p')
    (hC : List.Forall₂ (fun b b' => stripTagsB b = stripTagsB b') C C') :
    List.Forall₂ (fun b b' => stripTagsB b = stripTagsB b')
      (matchCatalog p C) (matchCatalog p' C') := by
  rw [matchCatalog_eq_filter, matchCatalog_eq_filter]
  induction hC with
  | nil => simp
  | @cons a a' l l' hbb htail ih =>
    have hsome : (evalBenefit p a).isSome = (evalBenefit p' a').isSome := by
      rw [evalBenefit_isSome_eq, evalBenefit_isSome_eq,
        hard_excluded_congr p p' a a' hp hbb]
    rw [List.filter_cons, List.filter_cons, hsome]
    cases h : (evalBenefit p' a').isSome
    · simpa using ih
    · simp only [if_true]
      exact List.Forall₂.cons hbb ih

/-- Witness for C4: profiles and a one-benefit catalog differing only in
tags. -/
theorem tags_affect_score_only_witness :
    List.Forall₂ (fun b b' => stripTagsB b = stripTagsB b')
      (matchCatalog { tags := some ["students"] }
        [{ name := "Pell", description := "College grant",
           category := "education", max_income := some 60000,
           tags := some ["students", "education"] }])
      (matchCatalog { tags := some ["unrelated"] }
        [{ name := "Pell", description := "College grant",
           category := "education", max_income := some 60000,
           tags := some ["other"] }]) :=
  tags_affect_score_only _ _ _ _ (by decide)
    (List.Forall₂.cons (by decide) List.Forall₂.nil)

/-- C5: age bounds are inclusive: with both sides present the minimum-age
rule excludes exactly when `age < min_age` and the maximum-age rule exactly
when `age > max_age` (so boundary ages pass); an absent side disables the
rule. -/
theorem age_bounds_inclusive (profile : Inquiry) (b : Benefit) :
    (∀ a mn : Nat, profile.age = some a → b.min_age = some mn →
      ((min_age_excludes profile b = true) ↔ a < mn) ∧
      (a < mn → ∀ catalog : List Benefit, b ∉ matchCatalog profile catalog)) ∧
    (∀ a mx : Nat, profile.age = some a → b.max_age = some mx →
      ((max_age_excludes profile b = true) ↔ mx < a) ∧
      (mx < a → ∀ catalog : List Benefit, b ∉ matchCatalog profile catalog)) ∧
    ((profile.age = none ∨ b.min_age = none) →
      min_age_excludes profile b = false) ∧
    ((profile.age = none ∨ b.max_age = none) →
      max_age_excludes profile b = false) := by
  refine ⟨?_, ?_, ?_, ?_⟩
  · intro a mn ha hmn
    have hiff : min_age_excludes profile b = true ↔ a < mn := by
      unfold min_age_excludes
      rw [hmn, ha]
      simp
    refine ⟨hiff, fun hlt => ?_⟩
    exact not_mem_matchCatalog_of_hard_excluded profile b
      (by simp [hard_excluded, hiff.2 hlt])
  · intro a mx ha hmx
    have hiff : max_age_excludes profile b = true ↔ mx < a := by
      unfold max_age_excludes
      rw [hmx, ha]
      simp
    refine ⟨hiff, fun hlt => ?_⟩
    exact not_mem_matchCatalog_of_hard_excluded profile b
      (by simp [hard_excluded, hiff.2 hlt])
  · rintro (h | h)
    · unfold min_age_excludes
      rw [h]
      rcases b.min_age with _ | mn <;> rfl
    · unfold min_age_excludes
      rw [h]
  · rintro (h | h)
    · unfold max_age_excludes
      rw [h]
      rcases b.max_age with _ | mx <;> rfl
    · unfold max_age_excludes
      rw [h]

/-- Witness for C5 at the boundary ages 17/18 and 65/66 against a benefit
with `min_age = 18` and `max_age = 65`. -/
theorem age_bounds_inclusive_witness :
    ageB ∉ matchCatalog { age := some 17 } [ageB] ∧
    min_age_excludes { age := some 18 } ageB = false ∧
    ageB ∉ matchCatalog { age := some 66 } [ageB] ∧
    max_age_excludes { age := some 65 } ageB = false :=
  ⟨((age_bounds_inclusive { age := some 17 } ageB).1 17 18 rfl rfl).2
      (by norm_num) [ageB],
    by decide,
    ((age_bounds_inclusive { age := some 66 } ageB).2.1 66 65 rfl rfl).2
      (by norm_num) [ageB],
    by decide⟩

/-- C6: a benefit requiring disability (resp. veteran status) excludes every
profile whose flag is not `true`; a benefit requiring dependents excludes
profiles with absent or zero dependents; `dependents >= 1` passes the
dependents rule. -/
theorem flag_rules_exclude (profile : Inquiry) (b : Benefit) :
    (b.requires_disability = some true → profile.disability ≠ some true →
      disability_excludes profile b = true ∧
        ∀ catalog : List Benefit, b ∉ matchCatalog profile catalog) ∧
    (b.requires_veteran = some true → profile.veteran ≠ some true →
      veteran_excludes profile b = true ∧
        ∀ catalog : List Benefit, b ∉ matchCatalog profile catalog) ∧
    (b.requires_dependents = some true →
      (profile.dependents = none ∨ profile.dependents = some 0) →
      dependents_excludes profile b = true ∧
        ∀ catalog : List Benefit, b ∉ matchCatalog profile catalog) ∧
    (∀ d : Nat, profile.dependents = some d → 1 ≤ d →
      dependents_excludes profile b = false) := by
  refine ⟨?_, ?_, ?_, ?_⟩
  · intro hreq hdis
    have hd : truthy profile.disability = false := by
      cases h : truthy profile.disability
      · rfl
      · exact absurd ((truthy_eq_true_iff _).1 h) hdis
    have hex : disability_excludes profile b = true := by
      unfold disability_excludes
      rw [hreq, hd]
      rfl
    exact ⟨hex, not_mem_matchCatalog_of_hard_excluded profile b
      (by simp [hard_excluded, hex])⟩
  · intro hreq hvet
    have hv : truthy profile.veteran = false := by
      cases h : truthy profile.veteran
      · rfl
      · exact absurd ((truthy_eq_true_iff _).1 h) hvet
    have hex : veteran_excludes profile b = true := by
      unfold veteran_excludes
      rw [hreq, hv]
      rfl
    exact ⟨hex, not_mem_matchCatalog_of_hard_excluded profile b
      (by simp [hard_excluded, hex])⟩
  · intro hreq hdep
    have hex : dependents_excludes profile b = true := by
      unfold dependents_excludes
      rw [hreq]
      rcases hdep with h | h <;> rw [h] <;> rfl
    exact ⟨hex, not_mem_matchCatalog_of_hard_excluded profile b
      (by simp [hard_excluded, hex])⟩
  · intro d hd hpos
    have hne : d ≠ 0 := by omega
    unfold dependents_excludes
    rw [hd]
    simp [hne]

/-- A benefit reserved for veterans, used in the C6 witness. -/
def vetB : Benefit :=
  { name := "VetCare", description := "Veteran health care",
    category := "healthcare", requires_veteran := some true }

/-- A benefit reserved for parents or guardians, used in the C6 witness. -/
def depB : Benefit :=
  { name := "ChildAid", description := "Help for parents",
    category := "family", requires_dependents := some true }

/-- Witness for C6: a veteran-only benefit against a non-veteran profile, a
dependents-only benefit against zero dependents, and a passing profile with
one dependent. -/
theorem flag_rules_exclude_witness :
    vetB ∉ matchCatalog { veteran := some false } [vetB] ∧
    depB ∉ matchCatalog { dependents := some 0 } [depB] ∧
    dependents_excludes { dependents := some 1 } depB = false :=
  ⟨((flag_rules_exclude { veteran := some false } vetB).2.1 rfl
      (by simp)).2 [vetB],
    ((flag_rules_exclude { dependents := some 0 } depB).2.2.1 rfl
      (Or.inr rfl)).2 [depB],
    (flag_rules_exclude { dependents := some 1 } depB).2.2.2 1 rfl
      (by norm_num)⟩

/-- A location-restricted benefit used in the C7 witness. -/
def caB : Benefit :=
  { name := "CalBenefit", description := "State program", category := "state",
    location := some "CA" }

/-- C7: the location rule compares case-insensitively and only when both
sides are present: equal lowercase forms never exclude (in particular
`"CA"` vs `"ca"`), `"CA"` vs `"NY"` excludes, and an absent side imposes no
constraint. -/
theorem location_rule_spec (profile : Inquiry) (b : Benefit) :
    (∀ s t : String, b.location = some s → profile.location = some t →
      strLower s = strLower t → location_excludes profile b = false) ∧
    (b.location = some "CA" → profile.location = some "ca" →
      location_excludes profile b = false) ∧
    (b.location = some "CA" → profile.location = some "NY" →
      location_excludes profile b = true ∧
        ∀ catalog : List Benefit, b ∉ matchCatalog profile catalog) ∧
    ((b.location = none ∨ profile.location = none) →
      location_excludes profile b = false) := by
  have hsame : ∀ s t : String, b.location = some s → profile.location = some t →
      strLower s = strLower t → location_excludes profile b = false := by
    intro s t hs ht heq
    unfold location_excludes
    rw [hs, ht]
    simp [heq]
  refine ⟨hsame, fun hs ht => hsame "CA" "ca" hs ht (by decide), ?_, ?_⟩
  · intro hs ht
    have hex : location_excludes profile b = true := by
      unfold location_excludes
      rw [hs, ht]
      decide
    exact ⟨hex, not_mem_matchCatalog_of_hard_excluded profile b
      (by simp [hard_excluded, hex])⟩
  · rintro (h | h)
    · unfold location_excludes
      rw [h]
      rfl
    · unfold location_excludes
      rw [h]
      rcases b.location with _ | s <;> simp [strTruthy]

/-- Witness for C7: `"CA"` matches `"ca"`, excludes `"NY"`. -/
theorem location_rule_spec_witness :
    location_excludes { location := some "ca" } caB = false ∧
    caB ∉ matchCatalog { location := some "NY" } [caB] ∧
    location_excludes {} caB = false :=
  ⟨(location_rule_spec { location := some "ca" } caB).2.1 rfl rfl,
    ((location_rule_spec { location := some "NY" } caB).2.2.1 rfl rfl).2 [caB],
    (location_rule_spec {} caB).2.2.2 (Or.inr rfl)⟩

/-- C8: the match result is a subsequence of the input catalog: every
returned benefit comes from the catalog, in the same relative order, with no
duplication or reordering introduced. -/
theorem match_results_sublist (profile : Inquiry) (catalog : List Benefit) :
    List.Sublist (matchCatalog profile catalog) catalog := by
  rw [matchCatalog_eq_filter]
  exact List.filter_sublist catalog

/-- C9: seeding is idempotent: a non-empty catalog reports 0 insertions and
is left unchanged; an empty catalog receives exactly the 4 fixed records
(SNAP, Medicaid, Pell Grant, Section 8 Voucher) with `inserted = 4`, and a
second invocation then inserts nothing. -/
theorem seed_idempotent (s : Store) :
    (s.benefits ≠ [] → seed_benefits (some s) = Except.ok (s, 0)) ∧
    (s.benefits = [] →
      seed_benefits (some s) = Except.ok (⟨seed_data⟩, 4) ∧
      seed_data.length = 4 ∧
      seed_data.map Benefit.name =
        ["SNAP (Food Assistance)", "Medicaid", "Pell Grant",
          "Section 8 Housing Choice Voucher"] ∧
      seed_benefits (some ⟨seed_data⟩) = Except.ok (⟨seed_data⟩, 0)) := by
  constructor
  · intro h
    have hpos : 0 < s.benefits.length := List.length_pos.mpr h
    unfold seed_benefits
    simp [hpos]
  · intro h
    rcases s with ⟨bs⟩
    obtain rfl : bs = [] := h
    exact ⟨rfl, rfl, rfl, rfl⟩

/-- Witness for C9: seeding the empty store inserts the 4 records; seeding
again inserts 0 and leaves the store unchanged. -/
theorem seed_idempotent_witness :
    seed_benefits (some ⟨[]⟩) = Except.ok (⟨seed_data⟩, 4) ∧
    seed_benefits (some ⟨seed_data⟩) = Except.ok (⟨seed_data⟩, 0) :=
  ⟨((seed_idempotent ⟨[]⟩).2 rfl).1,
    (seed_idempotent ⟨seed_data⟩).1 (by decide)⟩

/-- C10: a location equal to the empty string behaves as if absent
(presence is string truthiness, not non-null-ness): a benefit whose location
is `""` is never excluded by the location rule for any profile, and a profile
whose location is `""` is never location-excluded from any benefit. -/
theorem empty_location_no_constraint (profile : Inquiry) (b : Benefit) :
    (b.location = some "" → ∀ p : Inquiry, location_excludes p b = false) ∧
    (profile.location = some "" → location_excludes profile b = false) := by
  constructor
  · intro h p
    unfold location_excludes
    rw [h]
    rfl
  · intro h
    unfold location_excludes
    rw [h]
    rcases b.location with _ | s <;> simp [strTruthy]

/-- Witness for C10: an empty-string location on either side never
excludes. -/
theorem empty_location_no_constraint_witness :
    location_excludes { location := some "NY" }
      { name := "Anywhere", description := "No restriction",
        category := "misc", location := some "" } = false ∧
    location_excludes { location := some "" } caB = false :=
  ⟨(empty_location_no_constraint {}
      { name := "Anywhere", description := "No restriction",
        category := "misc", location := some "" }).1 rfl
      { location := some "NY" },
    (empty_location_no_constraint { location := some "" } caB).2 rfl⟩
